import Mathlib

/-!
# Shallow embedding of `src/camera.py` (pi4b-camera)

The repository is a single-file Raspberry Pi camera controller,
`PiCameraController`, plus a `main` entry point.  The controller owns

* two resolution profiles (`preview_size`, `still_size`) from which it builds
  a preview configuration (main stream at `preview_size` plus a 640x480
  YUV420 lores stream) and a still configuration (main stream at
  `still_size`, `buffer_count = 1`);
* two boolean flags, `preview_active` and `is_running`;
* an opaque device handle (`picam2`) whose externally observable state, for
  the purposes of this development, is the configuration last applied with
  `picam2.configure(...)` (what `picam2.camera_configuration()` reports).

Device calls (`stop_preview`, `stop`, `configure`, `start`, `start_preview`,
`time.sleep`, `capture_file`) are modelled as an explicit operation type.
`capture_photo` is embedded as an executor that threads the controller state,
records the trace of device calls actually performed, and takes a failure
oracle (`fail_at`: the index of the device call that raises, if any) together
with a flag saying whether the output file exists at the `os.path.exists`
check — Python's broad `try/except` around the body is modelled by the
executor skipping the remaining calls once a call has raised and returning
`none`.
-/

namespace PiCamera

/-- A resolution pair `(width, height)`. -/
structure Resolution where
  width : Nat
  height : Nat
deriving DecidableEq, Repr

/-- A camera configuration descriptor, as built in `_initialize_camera`:
a main-stream size, an optional lores-stream size, and an optional
explicit buffer count. -/
structure CameraConfig where
  mainSize : Resolution
  loresSize : Option Resolution
  buffer_count : Option Nat
deriving DecidableEq, Repr

/-- Observable state of a `PiCameraController` plus its camera device.
`applied` is the configuration last passed to `picam2.configure`
(`none` before the first `configure`), i.e. what
`picam2.camera_configuration()` reports. -/
structure ControllerState where
  button_pin : Nat
  preview_size : Resolution
  still_size : Resolution
  photos_dir : String
  applied : Option CameraConfig
  is_running : Bool
  preview_active : Bool
deriving DecidableEq, Repr

/-- `self.preview_config`, built in `_initialize_camera`:
`create_preview_configuration(main={"size": preview_size},
lores={"size": (640, 480), "format": "YUV420"})`. -/
def preview_config (s : ControllerState) : CameraConfig :=
  { mainSize := s.preview_size
    loresSize := some { width := 640, height := 480 }
    buffer_count := none }

/-- `self.still_config`, built in `_initialize_camera`:
`create_still_configuration(main={"size": still_size}, buffer_count=1)`. -/
def still_config (s : ControllerState) : CameraConfig :=
  { mainSize := s.still_size
    loresSize := none
    buffer_count := some 1 }

/-- Controller state right after `__init__` completes: flags cleared,
`photos_dir = "photos"`, no configuration applied to the device yet. -/
def initState (button_pin : Nat) (preview_size still_size : Resolution) :
    ControllerState :=
  { button_pin := button_pin
    preview_size := preview_size
    still_size := still_size
    photos_dir := "photos"
    applied := none
    is_running := false
    preview_active := false }

/-- One call into the camera device, in the order the Python issues them. -/
inductive DeviceOp where
  | stopPreviewOp
  | stopOp
  | configureOp (c : CameraConfig)
  | startOp
  | startPreviewOp
  | sleepOp (seconds : Nat)
  | captureFileOp (path : String)
deriving DecidableEq, Repr

/-- Effect of one device call on the tracked state: only `configure`
changes what `camera_configuration()` reports. -/
def applyOp (s : ControllerState) : DeviceOp → ControllerState
  | DeviceOp.configureOp c => { s with applied := some c }
  | _ => s

/-- An in-flight device interaction inside one `try` block: the controller
state, the trace of device calls completed so far, a countdown to the call
that raises (`none` = all calls succeed), and whether an exception has been
raised yet. -/
structure DevExec where
  st : ControllerState
  trace : List DeviceOp
  fail_at : Option Nat
  ok : Bool
deriving DecidableEq, Repr

/-- Perform one device call.  Once a call has raised (`ok = false`) the
remaining straight-line calls of the `try` block are skipped; a raising call
has no effect on the device. -/
def devCall (e : DevExec) (op : DeviceOp) : DevExec :=
  if e.ok then
    match e.fail_at with
    | some 0 => { e with ok := false }
    | some (n + 1) =>
        { st := applyOp e.st op, trace := e.trace ++ [op]
          fail_at := some n, ok := true }
    | none =>
        { st := applyOp e.st op, trace := e.trace ++ [op]
          fail_at := none, ok := true }
  else e

/-- A wall-clock timestamp as consumed by
`datetime.now().strftime("%Y%m%d_%H%M%S")`. -/
structure DateTime where
  year : Nat
  month : Nat
  day : Nat
  hour : Nat
  minute : Nat
  second : Nat
deriving DecidableEq, Repr

/-- Zero-padded two-digit field (strftime `%m`, `%d`, `%H`, `%M`, `%S`). -/
def pad2 (n : Nat) : String :=
  if n < 10 then "0" ++ toString n else toString n

/-- Zero-padded four-digit year (strftime `%Y`). -/
def pad4 (n : Nat) : String :=
  if n < 10 then "000" ++ toString n
  else if n < 100 then "00" ++ toString n
  else if n < 1000 then "0" ++ toString n
  else toString n

/-- `datetime.strftime("%Y%m%d_%H%M%S")`. -/
def strftimeStamp (t : DateTime) : String :=
  pad4 t.year ++ pad2 t.month ++ pad2 t.day ++ "_" ++
    pad2 t.hour ++ pad2 t.minute ++ pad2 t.second

/-- `f"{self.photos_dir}/photo_{timestamp}.jpg"`. -/
def photoFilename (photos_dir : String) (t : DateTime) : String :=
  photos_dir ++ "/photo_" ++ strftimeStamp t ++ ".jpg"

/-- `capture_photo`, embedded line by line.  Arguments beyond the state:
the current time `t`, the failure oracle `fail_at` (index of the device
call inside the `try` block that raises, `none` if all succeed), and
`file_ok`, the value `os.path.exists(filename)` returns at the final check.
Returns the final `DevExec` (post-call controller state, the trace of
device calls performed, and whether the body ran without raising) together
with the Python return value (`some path` or `none`).

When the device has never been configured, `camera_configuration()` yields
nothing subscriptable, the subscript raises, the broad `except` catches it
and the method returns `None` with no device call made (`ok = false`). -/
def capture_photo (s : ControllerState) (t : DateTime) (fail_at : Option Nat)
    (file_ok : Bool) : DevExec × Option String :=
  let filename := photoFilename s.photos_dir t
  match s.applied with
  | none => ({ st := s, trace := [], fail_at := fail_at, ok := false }, none)
  | some current_config =>
    let needs_config_switch :=
      decide (current_config.mainSize ≠ (still_config s).mainSize)
    let e0 : DevExec := { st := s, trace := [], fail_at := fail_at, ok := true }
    let e1 :=
      if needs_config_switch then
        -- was_preview_active := self.preview_active (never mutated below)
        let ea := if s.preview_active then devCall e0 DeviceOp.stopPreviewOp else e0
        let eb := devCall ea DeviceOp.stopOp
        let ec := devCall eb (DeviceOp.configureOp (still_config s))
        let ed := devCall ec DeviceOp.startOp
        let ee := if s.preview_active then devCall ed DeviceOp.startPreviewOp else ed
        devCall ee (DeviceOp.sleepOp 1)
      else e0
    let e2 := devCall e1 (DeviceOp.captureFileOp filename)
    -- `if needs_config_switch and self.preview_active`: `preview_active` is
    -- never assigned in this method, so it still holds its pre-call value.
    let e3 :=
      if needs_config_switch && s.preview_active then
        let ea := devCall e2 DeviceOp.stopPreviewOp
        let eb := devCall ea DeviceOp.stopOp
        let ec := devCall eb (DeviceOp.configureOp (preview_config s))
        let ed := devCall ec DeviceOp.startPreviewOp
        devCall ed DeviceOp.startOp
      else e2
    if e3.ok then
      if file_ok then (e3, some filename)
      else (e3, none)
    else (e3, none)

/-- `start_preview` (device calls taken to succeed): no-op when
`preview_active`, otherwise configures the preview profile, starts the
preview window and the device, and sets both flags. -/
def start_preview (s : ControllerState) : ControllerState :=
  if s.preview_active then s
  else
    { s with applied := some (preview_config s)
             preview_active := true
             is_running := true }

/-- `stop_preview` (device calls taken to succeed): no-op when not
`preview_active`, otherwise halts the preview window and the device and
clears `preview_active`.  `is_running` is not touched and the applied
configuration is unchanged. -/
def stop_preview (s : ControllerState) : ControllerState :=
  if s.preview_active then { s with preview_active := false } else s

/-- `_button_pressed`: the GPIO falling-edge callback captures a photo
only while `is_running`; device calls succeed and the file is produced. -/
def button_pressed (s : ControllerState) (t : DateTime) :
    ControllerState × Option String :=
  if s.is_running then
    let r := capture_photo s t none true
    (r.1.st, r.2)
  else (s, none)

/-- `cleanup`: clears `is_running`, stops the preview when active,
closes the device, releases GPIO. -/
def cleanup (s : ControllerState) : ControllerState :=
  let s1 := { s with is_running := false }
  if s1.preview_active then stop_preview s1 else s1

/-- The `KeyboardInterrupt` handler of `run_interactive_mode`:
clears `is_running` and leaves the loop. -/
def keyboard_interrupt (s : ControllerState) : ControllerState :=
  { s with is_running := false }

/-- One iteration of the `run_interactive_mode` loop body on an
already-lowercased, stripped command line.  Returns the new state and
`true` when the loop body falls through to the next iteration
(`false` only for the `break` of `q`).  The `c` branch runs
`capture_photo` (with the given failure oracle) and feeds any returned
path to the `apply_post_processing` pass-through stub. -/
def run_command (s : ControllerState) (cmd : String) (t : DateTime)
    (fail_at : Option Nat) (file_ok : Bool) : ControllerState × Bool :=
  if cmd = "c" then
    let r := capture_photo s t fail_at file_ok
    (r.1.st, true)
  else if cmd = "s" then (s, true)
  else if cmd = "q" then ({ s with is_running := false }, false)
  else (s, true)

/-- `apply_post_processing`: a pass-through stub. -/
def apply_post_processing (image_path : String) : String :=
  image_path

/-- Which startup dependencies fail: the GPIO service
(inside `_setup_gpio`) and the camera device (inside
`_initialize_camera`). -/
structure InitEnv where
  gpio_fails : Bool
  camera_fails : Bool
deriving DecidableEq, Repr

/-- Result of running `PiCameraController.__init__`: either a constructed
controller with a flag saying whether the button callback got registered,
or a propagated exception. -/
inductive InitResult where
  | ok (s : ControllerState) (gpio_active : Bool)
  | raised
deriving DecidableEq, Repr

/-- `__init__`: creates the photos directory (filesystem only), then
`_setup_gpio` — whose `try/except` swallows any GPIO failure, prints
"Button functionality will not be available" and continues — then
`_initialize_camera`, which re-raises on camera failure. -/
def controller_init (env : InitEnv) (button_pin : Nat)
    (preview_size still_size : Resolution) : InitResult :=
  let gpio_active := !env.gpio_fails
  if env.camera_fails then InitResult.raised
  else InitResult.ok (initState button_pin preview_size still_size) gpio_active

/-- What `main` observably did: whether `run_interactive_mode` (the
interactive command loop) was entered, and the process exit status. -/
structure MainResult where
  entered_loop : Bool
  exit_code : Nat
deriving DecidableEq, Repr

/-- `main`: constructs `PiCameraController(button_pin=0)` with the default
profile sizes and runs the interactive loop.  A constructor exception is
caught by `except Exception as e: print(f"Error: {e}")`; `camera` is still
`None` so the `finally` block skips `cleanup`, `main` returns normally and
the interpreter exits with status 0. -/
def pymain (env : InitEnv) : MainResult :=
  match controller_init env 0 { width := 1640, height := 1232 }
      { width := 4056, height := 3040 } with
  | InitResult.raised => { entered_loop := false, exit_code := 0 }
  | InitResult.ok _ _ => { entered_loop := true, exit_code := 0 }

/-- Recognizer for the `capture_file` device call. -/
def isCaptureFileOp : DeviceOp → Bool
  | DeviceOp.captureFileOp _ => true
  | _ => false

/-- The controller states reachable from a freshly constructed controller
through the operations of the program: `start_preview`, `stop_preview`,
`capture_photo` (under any failure oracle and `os.path.exists` outcome),
the GPIO button callback, one command-loop iteration on any command line,
the `KeyboardInterrupt` handler, and `cleanup`. -/
inductive Reachable (pin : Nat) (ps ss : Resolution) : ControllerState → Prop where
  | init : Reachable pin ps ss (initState pin ps ss)
  | startPrev {s : ControllerState} :
      Reachable pin ps ss s → Reachable pin ps ss (start_preview s)
  | stopPrev {s : ControllerState} :
      Reachable pin ps ss s → Reachable pin ps ss (stop_preview s)
  | capture {s : ControllerState} (t : DateTime) (fail_at : Option Nat)
      (file_ok : Bool) : Reachable pin ps ss s →
      Reachable pin ps ss (capture_photo s t fail_at file_ok).1.st
  | button {s : ControllerState} (t : DateTime) :
      Reachable pin ps ss s → Reachable pin ps ss (button_pressed s t).1
  | command {s : ControllerState} (cmd : String) (t : DateTime)
      (fail_at : Option Nat) (file_ok : Bool) : Reachable pin ps ss s →
      Reachable pin ps ss (run_command s cmd t fail_at file_ok).1
  | interrupt {s : ControllerState} :
      Reachable pin ps ss s → Reachable pin ps ss (keyboard_interrupt s)
  | cleanupStep {s : ControllerState} :
      Reachable pin ps ss s → Reachable pin ps ss (cleanup s)

/-- The default preview resolution `(1640, 1232)`. -/
def res_p : Resolution := { width := 1640, height := 1232 }

/-- The default still resolution `(4056, 3040)`. -/
def res_s : Resolution := { width := 4056, height := 3040 }

/-- A freshly constructed controller with the default profile sizes. -/
def s_init : ControllerState := initState 0 res_p res_s

/-- The controller right after `start_preview`: preview configuration
applied, preview on, running. -/
def s_on : ControllerState := start_preview s_init

/-- The controller after `start_preview` then `stop_preview`: preview
configuration still applied, preview off. -/
def s_off : ControllerState := stop_preview s_on

/-- A sample wall-clock instant, 2026-10-12 09:05:03. -/
def t0 : DateTime :=
  { year := 2026, month := 10, day := 12, hour := 9, minute := 5, second := 3 }

/-! ## Helper lemmas -/

@[simp] theorem devCall_st_button_pin (e : DevExec) (op : DeviceOp) :
    (devCall e op).st.button_pin = e.st.button_pin := by
  unfold devCall
  split
  · split
    · rfl
    · cases op <;> rfl
    · cases op <;> rfl
  · rfl

@[simp] theorem devCall_st_preview_size (e : DevExec) (op : DeviceOp) :
    (devCall e op).st.preview_size = e.st.preview_size := by
  unfold devCall
  split
  · split
    · rfl
    · cases op <;> rfl
    · cases op <;> rfl
  · rfl

@[simp] theorem devCall_st_still_size (e : DevExec) (op : DeviceOp) :
    (devCall e op).st.still_size = e.st.still_size := by
  unfold devCall
  split
  · split
    · rfl
    · cases op <;> rfl
    · cases op <;> rfl
  · rfl

@[simp] theorem devCall_st_photos_dir (e : DevExec) (op : DeviceOp) :
    (devCall e op).st.photos_dir = e.st.photos_dir := by
  unfold devCall
  split
  · split
    · rfl
    · cases op <;> rfl
    · cases op <;> rfl
  · rfl

@[simp] theorem devCall_st_is_running (e : DevExec) (op : DeviceOp) :
    (devCall e op).st.is_running = e.st.is_running := by
  unfold devCall
  split
  · split
    · rfl
    · cases op <;> rfl
    · cases op <;> rfl
  · rfl

@[simp] theorem devCall_st_preview_active (e : DevExec) (op : DeviceOp) :
    (devCall e op).st.preview_active = e.st.preview_active := by
  unfold devCall
  split
  · split
    · rfl
    · cases op <;> rfl
    · cases op <;> rfl
  · rfl

theorem devCall_st_applied (e : DevExec) (op : DeviceOp) :
    (devCall e op).st.applied = e.st.applied ∨
      ∃ c, op = DeviceOp.configureOp c ∧ (devCall e op).st.applied = some c := by
  unfold devCall
  split
  · split
    · exact Or.inl rfl
    · cases op <;> first | exact Or.inr ⟨_, rfl, rfl⟩ | exact Or.inl rfl
    · cases op <;> first | exact Or.inr ⟨_, rfl, rfl⟩ | exact Or.inl rfl
  · exact Or.inl rfl

theorem devCall_applied_pred (P : Option CameraConfig → Prop) (e : DevExec)
    (op : DeviceOp) (h1 : P e.st.applied)
    (h2 : ∀ c, op = DeviceOp.configureOp c → P (some c)) :
    P (devCall e op).st.applied := by
  rcases devCall_st_applied e op with h | ⟨c, hc, h⟩
  · rw [h]; exact h1
  · rw [h]; exact h2 c hc

theorem foldl_devCall_applied_pred (P : Option CameraConfig → Prop)
    (ops : List DeviceOp) (e : DevExec) (h1 : P e.st.applied)
    (h2 : ∀ c, DeviceOp.configureOp c ∈ ops → P (some c)) :
    P (List.foldl devCall e ops).st.applied := by
  induction ops generalizing e with
  | nil => exact h1
  | cons op rest ih =>
      refine ih (devCall e op) (devCall_applied_pred P e op h1 ?_) ?_
      · intro c hc
        exact h2 c (hc ▸ List.mem_cons_self op rest)
      · intro c hc
        exact h2 c (List.mem_cons_of_mem _ hc)

theorem capture_photo_st_proj {α : Type} (f : ControllerState → α)
    (hf : ∀ (e : DevExec) (op : DeviceOp), f (devCall e op).st = f e.st)
    (s : ControllerState) (t : DateTime) (fail_at : Option Nat) (file_ok : Bool) :
    f (capture_photo s t fail_at file_ok).1.st = f s := by
  unfold capture_photo
  cases ha : s.applied
  · rfl
  · dsimp only
    split_ifs <;> simp only [hf]

theorem devCall_applied_tri (a b : CameraConfig) (z : Option CameraConfig)
    (e : DevExec) (op : DeviceOp)
    (h1 : e.st.applied = z ∨ e.st.applied = some a ∨ e.st.applied = some b)
    (h2 : ∀ c, op = DeviceOp.configureOp c → c = a ∨ c = b) :
    (devCall e op).st.applied = z ∨ (devCall e op).st.applied = some a ∨
      (devCall e op).st.applied = some b := by
  rcases devCall_st_applied e op with h | ⟨c, hc, h⟩
  · rw [h]; exact h1
  · rcases h2 c hc with rfl | rfl
    · exact Or.inr (Or.inl h)
    · exact Or.inr (Or.inr h)

theorem capture_photo_applied (s : ControllerState) (t : DateTime)
    (fail_at : Option Nat) (file_ok : Bool) :
    (capture_photo s t fail_at file_ok).1.st.applied = s.applied ∨
    (capture_photo s t fail_at file_ok).1.st.applied = some (still_config s) ∨
    (capture_photo s t fail_at file_ok).1.st.applied = some (preview_config s) := by
  unfold capture_photo
  cases ha : s.applied with
  | none => exact Or.inl ha
  | some cfg =>
    dsimp only
    split_ifs <;>
      (repeat
        first
          | exact Or.inl ha
          | refine devCall_applied_tri _ _ _ _ _ ?_
              (by intro c hc; cases hc <;> first | exact Or.inl rfl | exact Or.inr rfl))

theorem capture_photo_success_applied (s : ControllerState) (t : DateTime)
    (file_ok : Bool) (cfg : CameraConfig) (h : s.applied = some cfg) :
    (capture_photo s t none file_ok).1.st.applied =
      (if cfg.mainSize = (still_config s).mainSize then s.applied
       else if s.preview_active then some (preview_config s)
       else some (still_config s)) := by
  unfold capture_photo
  rw [h]
  dsimp only
  cases file_ok <;>
    by_cases hn : cfg.mainSize = (still_config s).mainSize <;>
      by_cases hp : s.preview_active <;>
        simp [hn, hp, devCall, applyOp, h]

theorem capture_result_aux (E : DevExec) (fn : String) (fo : Bool) :
    ((if E.ok = true then if fo = true then (E, some fn) else (E, none)
        else (E, none)).2 = some fn ↔
      ((if E.ok = true then if fo = true then (E, some fn) else (E, none)
          else (E, none)).1.ok = true ∧ fo = true)) ∧
    ((if E.ok = true then if fo = true then (E, some fn) else (E, none)
        else (E, none)).1.ok = false →
      (if E.ok = true then if fo = true then (E, some fn) else (E, none)
          else (E, none)).2 = none) := by
  by_cases h : E.ok = true <;> cases fo <;> simp [h]

theorem preview_config_congr {s1 s2 : ControllerState}
    (h : s2.preview_size = s1.preview_size) :
    preview_config s2 = preview_config s1 := by
  simp [preview_config, h]

theorem still_config_congr {s1 s2 : ControllerState}
    (h : s2.still_size = s1.still_size) :
    still_config s2 = still_config s1 := by
  simp [still_config, h]

theorem capture_step_invariant {ps ss : Resolution} {s1 : ControllerState}
    (t : DateTime) (fa : Option Nat) (fo : Bool)
    (h1 : s1.preview_size = ps) (h2 : s1.still_size = ss)
    (h3 : s1.photos_dir = "photos")
    (h4 : s1.applied = none ∨ s1.applied = some (preview_config s1) ∨
          s1.applied = some (still_config s1)) :
    (capture_photo s1 t fa fo).1.st.preview_size = ps ∧
    (capture_photo s1 t fa fo).1.st.still_size = ss ∧
    (capture_photo s1 t fa fo).1.st.photos_dir = "photos" ∧
    ((capture_photo s1 t fa fo).1.st.applied = none ∨
     (capture_photo s1 t fa fo).1.st.applied =
       some (preview_config (capture_photo s1 t fa fo).1.st) ∨
     (capture_photo s1 t fa fo).1.st.applied =
       some (still_config (capture_photo s1 t fa fo).1.st)) := by
  have hps := capture_photo_st_proj ControllerState.preview_size
    devCall_st_preview_size s1 t fa fo
  have hss := capture_photo_st_proj ControllerState.still_size
    devCall_st_still_size s1 t fa fo
  have hpd := capture_photo_st_proj ControllerState.photos_dir
    devCall_st_photos_dir s1 t fa fo
  refine ⟨hps.trans h1, hss.trans h2, hpd.trans h3, ?_⟩
  have hpc : preview_config (capture_photo s1 t fa fo).1.st = preview_config s1 :=
    preview_config_congr hps
  have hsc : still_config (capture_photo s1 t fa fo).1.st = still_config s1 :=
    still_config_congr hss
  rcases capture_photo_applied s1 t fa fo with h | h | h
  · rw [h]
    rcases h4 with h4 | h4 | h4
    · exact Or.inl h4
    · exact Or.inr (Or.inl (h4.trans (by rw [hpc])))
    · exact Or.inr (Or.inr (h4.trans (by rw [hsc])))
  · exact Or.inr (Or.inr (h.trans (by rw [hsc])))
  · exact Or.inr (Or.inl (h.trans (by rw [hpc])))

theorem reachable_invariant {pin : Nat} {ps ss : Resolution}
    {s : ControllerState} (h : Reachable pin ps ss s) :
    s.preview_size = ps ∧ s.still_size = ss ∧ s.photos_dir = "photos" ∧
    (s.applied = none ∨ s.applied = some (preview_config s) ∨
     s.applied = some (still_config s)) := by
  induction h with
  | init => exact ⟨rfl, rfl, rfl, Or.inl rfl⟩
  | @startPrev s1 h1 ih =>
      obtain ⟨i1, i2, i3, i4⟩ := ih
      simp only [start_preview]
      split_ifs
      · exact ⟨i1, i2, i3, i4⟩
      · exact ⟨i1, i2, i3, Or.inr (Or.inl rfl)⟩
  | @stopPrev s1 h1 ih =>
      obtain ⟨i1, i2, i3, i4⟩ := ih
      simp only [stop_preview]
      split_ifs <;> exact ⟨i1, i2, i3, i4⟩
  | @capture s1 t fa fo h1 ih =>
      obtain ⟨i1, i2, i3, i4⟩ := ih
      exact capture_step_invariant t fa fo i1 i2 i3 i4
  | @button s1 t h1 ih =>
      obtain ⟨i1, i2, i3, i4⟩ := ih
      simp only [button_pressed]
      split_ifs
      · exact capture_step_invariant t none true i1 i2 i3 i4
      · exact ⟨i1, i2, i3, i4⟩
  | @command s1 cmd t fa fo h1 ih =>
      obtain ⟨i1, i2, i3, i4⟩ := ih
      simp only [run_command]
      split_ifs
      · exact capture_step_invariant t fa fo i1 i2 i3 i4
      all_goals exact ⟨i1, i2, i3, i4⟩
  | @interrupt s1 h1 ih =>
      obtain ⟨i1, i2, i3, i4⟩ := ih
      exact ⟨i1, i2, i3, i4⟩
  | @cleanupStep s1 h1 ih =>
      obtain ⟨i1, i2, i3, i4⟩ := ih
      simp only [cleanup, stop_preview]
      split_ifs <;> exact ⟨i1, i2, i3, i4⟩

/-! ## Claims -/

/-- C1, counterexample: with a simulated camera-device initialization
failure, `main` does skip the command loop, but the claim's second half is
false: `main` catches the constructor exception with a broad
`except Exception` and returns normally, so the process exits with status
0, not a non-zero status. -/
theorem main_init_failure_exit_code_counterexample :
    (pymain { gpio_fails := false, camera_fails := true }).entered_loop = false ∧
    ¬ ((pymain { gpio_fails := false, camera_fails := true }).exit_code ≠ 0) := by
  decide

/-- C1, amended: if `_initialize_camera` raises, the process never enters
the interactive command loop, but it exits with status 0: `main` catches
the exception, prints it, and returns normally. -/
theorem main_init_failure_skips_loop_exit_zero (env : InitEnv)
    (h : env.camera_fails = true) :
    (pymain env).entered_loop = false ∧ (pymain env).exit_code = 0 := by
  unfold pymain controller_init
  simp [h]

/-- Witness for the amended C1 at the concrete failing environment. -/
theorem main_init_failure_skips_loop_exit_zero_witness :
    (pymain { gpio_fails := false, camera_fails := true }).entered_loop = false ∧
    (pymain { gpio_fails := false, camera_fails := true }).exit_code = 0 :=
  main_init_failure_skips_loop_exit_zero { gpio_fails := false, camera_fails := true } rfl

/-- C2, counterexample: from the reachable pre-call state with the preview
configuration applied and preview off (`start_preview` then
`stop_preview`), a successful `capture_photo` does not return the session
to its pre-call configuration: the switch-back branch is guarded by
`needs_config_switch and self.preview_active`, so with preview off the
device is left in the still configuration. -/
theorem capture_photo_roundtrip_counterexample :
    (capture_photo s_off t0 none true).2 = some "photos/photo_20261012_090503.jpg" ∧
    s_off.applied = some (preview_config s_off) ∧
    s_off.preview_active = false ∧
    (capture_photo s_off t0 none true).1.st.applied ≠ s_off.applied := by
  refine ⟨?_, rfl, rfl, ?_⟩ <;> decide

/-- C2, amended: a successful `capture_photo` returns the session to the
configuration applied immediately before the call when preview is on, or
when the still configuration is already applied; but in the third pre-call
state — preview configuration applied with preview off — the session is
left in the still configuration instead. -/
theorem capture_photo_mode_roundtrip (s : ControllerState) (t : DateTime) :
    ((s.applied = some (preview_config s) ∧ s.preview_active = true) →
        (capture_photo s t none true).1.st.applied = s.applied) ∧
    (s.applied = some (still_config s) →
        (capture_photo s t none true).1.st.applied = s.applied) ∧
    ((s.applied = some (preview_config s) ∧ s.preview_active = false ∧
        s.preview_size ≠ s.still_size) →
        (capture_photo s t none true).1.st.applied = some (still_config s)) := by
  refine ⟨?_, ?_, ?_⟩
  · rintro ⟨h, hp⟩
    rw [capture_photo_success_applied s t true _ h]
    by_cases hn : (preview_config s).mainSize = (still_config s).mainSize
    · simp [hn]
    · simp [hn, hp, h]
  · intro h
    rw [capture_photo_success_applied s t true _ h]
    simp
  · rintro ⟨h, hp, hd⟩
    rw [capture_photo_success_applied s t true _ h]
    have hn : (preview_config s).mainSize ≠ (still_config s).mainSize := by
      simpa [preview_config, still_config] using hd
    simp [hn, hp]

/-- Witness for the amended C2: in the preview-on state the applied
configuration round-trips. -/
theorem capture_photo_mode_roundtrip_witness :
    (capture_photo s_on t0 none true).1.st.applied = s_on.applied :=
  (capture_photo_mode_roundtrip s_on t0).1 ⟨rfl, rfl⟩

/-- C3, counterexample: with the GPIO service failing at startup (and the
camera fine), the process still enters the command loop:
`_setup_gpio` catches the exception, prints that button functionality will
not be available, and construction continues, so GPIO failure is not
fatal. -/
theorem gpio_failure_enters_loop_counterexample :
    (pymain { gpio_fails := true, camera_fails := false }).entered_loop = true := by
  decide

/-- C3, amended: a GPIO setup failure during construction is caught inside
`_setup_gpio`; construction completes with the button callback simply not
registered, and (camera permitting) the process enters the command loop. -/
theorem gpio_failure_nonfatal (env : InitEnv) (pin : Nat)
    (ps ss : Resolution) (h : env.camera_fails = false) :
    controller_init env pin ps ss =
      InitResult.ok (initState pin ps ss) (!env.gpio_fails) ∧
    (pymain env).entered_loop = true := by
  constructor
  · unfold controller_init
    simp [h]
  · unfold pymain controller_init
    simp [h]

/-- Witness for the amended C3 at the concrete failing-GPIO environment. -/
theorem gpio_failure_nonfatal_witness :
    controller_init { gpio_fails := true, camera_fails := false } 0 res_p res_s =
      InitResult.ok (initState 0 res_p res_s) false ∧
    (pymain { gpio_fails := true, camera_fails := false }).entered_loop = true :=
  gpio_failure_nonfatal { gpio_fails := true, camera_fails := false } 0 res_p res_s rfl

/-- C4: from every reachable session state, whatever `capture_photo` does
(any failure point, file produced or not), the configuration applied when
it returns has a main resolution equal to the preview profile's or the
still profile's resolution, never anything else. -/
theorem capture_resolution_in_profiles {pin : Nat} {ps ss : Resolution}
    {s : ControllerState} (h : Reachable pin ps ss s) (t : DateTime)
    (fail_at : Option Nat) (file_ok : Bool) (c : CameraConfig)
    (hc : (capture_photo s t fail_at file_ok).1.st.applied = some c) :
    c.mainSize = ps ∨ c.mainSize = ss := by
  obtain ⟨i1, i2, i3, i4⟩ := reachable_invariant h
  obtain ⟨g1, g2, _, g4⟩ := capture_step_invariant t fail_at file_ok i1 i2 i3 i4
  rcases g4 with g | g | g
  · rw [hc] at g
    cases g
  · rw [hc] at g
    injection g with g
    rw [g]
    exact Or.inl (by simp [preview_config, g1])
  · rw [hc] at g
    injection g with g
    rw [g]
    exact Or.inr (by simp [still_config, g2])

/-- Witness for C4: capturing from the reachable preview state yields the
preview resolution. -/
theorem capture_resolution_in_profiles_witness :
    (preview_config s_on).mainSize = res_p ∨ (preview_config s_on).mainSize = res_s :=
  capture_resolution_in_profiles
    ((Reachable.startPrev Reachable.init : Reachable 0 res_p res_s s_on))
    t0 none true (preview_config s_on) (by decide)

/-- C5: `capture_photo` never assigns `preview_active` (or `is_running`):
under every outcome — any device call raising at any point, the output
file present or missing — both flags when the call returns equal their
pre-call values; in particular a call made in preview mode ends with
`preview_active` still true. -/
theorem capture_photo_preserves_flags (s : ControllerState) (t : DateTime)
    (fail_at : Option Nat) (file_ok : Bool) :
    (capture_photo s t fail_at file_ok).1.st.preview_active = s.preview_active ∧
    (capture_photo s t fail_at file_ok).1.st.is_running = s.is_running :=
  ⟨capture_photo_st_proj ControllerState.preview_active
      devCall_st_preview_active s t fail_at file_ok,
   capture_photo_st_proj ControllerState.is_running
      devCall_st_is_running s t fail_at file_ok⟩

/-- C6: `start_preview` and `stop_preview` are idempotent — on every
session state, calling either twice in a row produces exactly the state
one call produces (both guard on `preview_active` and no-op on the second
call). -/
theorem preview_ops_idempotent (s : ControllerState) :
    start_preview (start_preview s) = start_preview s ∧
    stop_preview (stop_preview s) = stop_preview s := by
  constructor
  · by_cases hp : s.preview_active <;> simp [start_preview, hp]
  · by_cases hp : s.preview_active <;> simp [stop_preview, hp]

/-- C7: when the applied configuration's main resolution differs from the
still profile's, a `capture_photo` on which no device call raises performs
exactly: stop preview if it was on, stop the device, apply the still
configuration, restart the device, restart preview if it had been on, a
fixed 1-second settle sleep, and only then the still-file write — followed
by the switch back when preview was on. -/
theorem capture_switch_device_sequence (s : ControllerState) (t : DateTime)
    (file_ok : Bool) (cfg : CameraConfig) (h1 : s.applied = some cfg)
    (h2 : cfg.mainSize ≠ (still_config s).mainSize) :
    (capture_photo s t none file_ok).1.trace =
      (if s.preview_active then [DeviceOp.stopPreviewOp] else []) ++
      [DeviceOp.stopOp, DeviceOp.configureOp (still_config s), DeviceOp.startOp] ++
      (if s.preview_active then [DeviceOp.startPreviewOp] else []) ++
      [DeviceOp.sleepOp 1, DeviceOp.captureFileOp (photoFilename s.photos_dir t)] ++
      (if s.preview_active then
        [DeviceOp.stopPreviewOp, DeviceOp.stopOp,
         DeviceOp.configureOp (preview_config s), DeviceOp.startPreviewOp,
         DeviceOp.startOp] else []) := by
  unfold capture_photo
  rw [h1]
  dsimp only
  cases file_ok <;>
    by_cases hp : s.preview_active <;>
      simp [h2, hp, devCall, applyOp]

/-- Witness for C7 at the concrete preview-mode state and sample time. -/
theorem capture_switch_device_sequence_witness :
    (capture_photo s_on t0 none true).1.trace =
      (if s_on.preview_active then [DeviceOp.stopPreviewOp] else []) ++
      [DeviceOp.stopOp, DeviceOp.configureOp (still_config s_on), DeviceOp.startOp] ++
      (if s_on.preview_active then [DeviceOp.startPreviewOp] else []) ++
      [DeviceOp.sleepOp 1, DeviceOp.captureFileOp (photoFilename s_on.photos_dir t0)] ++
      (if s_on.preview_active then
        [DeviceOp.stopPreviewOp, DeviceOp.stopOp,
         DeviceOp.configureOp (preview_config s_on), DeviceOp.startPreviewOp,
         DeviceOp.startOp] else []) :=
  capture_switch_device_sequence s_on t0 true (preview_config s_on) rfl (by decide)

/-- C8: a `capture_photo` on which no device call raises and whose file
check succeeds writes exactly one output file, at
`photos/photo_<YYYYMMDD_HHMMSS>.jpg` for the call's timestamp, and returns
exactly that path. -/
theorem capture_photo_output_file (s : ControllerState) (t : DateTime)
    (cfg : CameraConfig) (h : s.applied = some cfg)
    (hdir : s.photos_dir = "photos") :
    (capture_photo s t none true).2 =
      some ("photos/photo_" ++ strftimeStamp t ++ ".jpg") ∧
    ((capture_photo s t none true).1.trace.filter isCaptureFileOp) =
      [DeviceOp.captureFileOp ("photos/photo_" ++ strftimeStamp t ++ ".jpg")] := by
  unfold capture_photo
  rw [h]
  dsimp only
  by_cases hn : cfg.mainSize = (still_config s).mainSize <;>
    by_cases hp : s.preview_active <;>
      simp [hn, hp, devCall, applyOp, isCaptureFileOp, photoFilename, hdir]

/-- Witness for C8: the concrete call at 2026-10-12 09:05:03 produces and
returns `photos/photo_20261012_090503.jpg`. -/
theorem capture_photo_output_file_witness :
    (capture_photo s_on t0 none true).2 = some "photos/photo_20261012_090503.jpg" := by
  have h := (capture_photo_output_file s_on t0 (preview_config s_on) rfl rfl).1
  rw [(by decide :
    ("photos/photo_" ++ strftimeStamp t0 ++ ".jpg") =
      "photos/photo_20261012_090503.jpg")] at h
  exact h

/-- C9: `capture_photo` returns the output path exactly when no device
call raised and the output file exists at the `os.path.exists` check; when
a device call raises the broad `except` yields `None` instead of
propagating; and a `c` command-loop iteration falls through to the next
iteration with `is_running` untouched whatever the capture outcome. -/
theorem capture_photo_result_iff_file (s : ControllerState) (t : DateTime)
    (fail_at : Option Nat) (file_ok : Bool) :
    ((capture_photo s t fail_at file_ok).2 = some (photoFilename s.photos_dir t)
       ↔ ((capture_photo s t fail_at file_ok).1.ok = true ∧ file_ok = true)) ∧
    ((capture_photo s t fail_at file_ok).1.ok = false →
       (capture_photo s t fail_at file_ok).2 = none) ∧
    (run_command s "c" t fail_at file_ok).2 = true ∧
    (run_command s "c" t fail_at file_ok).1.is_running = s.is_running := by
  have hrun2 : (run_command s "c" t fail_at file_ok).2 = true := by
    simp [run_command]
  have hrun1 : (run_command s "c" t fail_at file_ok).1.is_running = s.is_running := by
    simp only [run_command, if_pos rfl]
    exact capture_photo_st_proj ControllerState.is_running
      devCall_st_is_running s t fail_at file_ok
  refine ⟨?_, ?_, hrun2, hrun1⟩ <;>
    · unfold capture_photo
      cases ha : s.applied
      · simp
      · dsimp only
        first
          | exact (capture_result_aux _ _ _).1
          | exact (capture_result_aux _ _ _).2

/-- Witness for C9: at the preview state with the very first device call
raising, the call returns an absent result and the loop iteration keeps
running. -/
theorem capture_photo_result_iff_file_witness :
    ((capture_photo s_on t0 (some 0) true).2 = some (photoFilename s_on.photos_dir t0)
       ↔ ((capture_photo s_on t0 (some 0) true).1.ok = true ∧ true = true)) ∧
    (run_command s_on "c" t0 (some 0) true).1.is_running = s_on.is_running :=
  ⟨(capture_photo_result_iff_file s_on t0 (some 0) true).1,
   (capture_photo_result_iff_file s_on t0 (some 0) true).2.2.2⟩

/-- C10: `stop_preview` never touches `is_running`; a button press after
`stop_preview` (with the session running) still invokes `capture_photo`;
`start_preview`, `capture_photo`, the button callback and the non-quit
commands all keep `is_running` true; only the `q` command, the
`KeyboardInterrupt` handler and `cleanup` clear it. -/
theorem stop_preview_keeps_running (s : ControllerState) (t : DateTime)
    (fail_at : Option Nat) (file_ok : Bool) (cmd : String) :
    (stop_preview s).is_running = s.is_running ∧
    (s.is_running = true →
      button_pressed (stop_preview s) t =
        ((capture_photo (stop_preview s) t none true).1.st,
         (capture_photo (stop_preview s) t none true).2)) ∧
    (s.is_running = true → (start_preview s).is_running = true) ∧
    (capture_photo s t fail_at file_ok).1.st.is_running = s.is_running ∧
    (s.is_running = true → (button_pressed s t).1.is_running = true) ∧
    (cmd ≠ "q" → (run_command s cmd t fail_at file_ok).1.is_running = s.is_running) ∧
    (run_command s "q" t fail_at file_ok).1.is_running = false ∧
    (keyboard_interrupt s).is_running = false ∧
    (cleanup s).is_running = false := by
  have hstop : (stop_preview s).is_running = s.is_running := by
    by_cases hp : s.preview_active <;> simp [stop_preview, hp]
  have hcap : ∀ (s2 : ControllerState),
      (capture_photo s2 t fail_at file_ok).1.st.is_running = s2.is_running :=
    fun s2 => capture_photo_st_proj ControllerState.is_running
      devCall_st_is_running s2 t fail_at file_ok
  refine ⟨hstop, ?_, ?_, hcap s, ?_, ?_, ?_, rfl, ?_⟩
  · intro hr
    have : (stop_preview s).is_running = true := hstop.trans hr
    simp [button_pressed, this]
  · intro hr
    by_cases hp : s.preview_active <;> simp [start_preview, hp, hr]
  · intro hr
    simp only [button_pressed, if_pos hr]
    exact (capture_photo_st_proj ControllerState.is_running
      devCall_st_is_running s t none true).trans hr
  · intro hq
    by_cases hc1 : cmd = "c"
    · subst hc1
      simp only [run_command, if_pos]
      exact capture_photo_st_proj ControllerState.is_running
        devCall_st_is_running s t fail_at file_ok
    · by_cases hs1 : cmd = "s"
      · subst hs1
        simp [run_command]
      · simp [run_command, hc1, hs1, hq]
  · simp [run_command]
  · simp [cleanup, stop_preview]
    split_ifs <;> rfl

/-- Witness for C10 at the running preview state: the button press after
`stop_preview` still captures, and a status command keeps running. -/
theorem stop_preview_keeps_running_witness :
    (stop_preview s_on).is_running = s_on.is_running ∧
    button_pressed (stop_preview s_on) t0 =
      ((capture_photo (stop_preview s_on) t0 none true).1.st,
       (capture_photo (stop_preview s_on) t0 none true).2) ∧
    (run_command s_on "s" t0 none true).1.is_running = s_on.is_running :=
  ⟨(stop_preview_keeps_running s_on t0 none true "s").1,
   (stop_preview_keeps_running s_on t0 none true "s").2.1 rfl,
   (stop_preview_keeps_running s_on t0 none true "s").2.2.2.2.2.1 (by decide)⟩

end PiCamera
